import Mathlib

/-!
Verification of the Sokosumi MCP OAuth 2.1 authorization server
(`oauth.py` / `server.py`) against its natural-language specification.

The Python modules are shallowly embedded: the process-wide dictionaries
(`_oauth_sessions`, `_auth_codes`, `_refresh_tokens`) become an explicit
`OAuthState` record of association lists threaded through each operation;
wall-clock time (`time.time()`) and the outputs of the entropy source
(`secrets.token_urlsafe`) are passed as explicit arguments; Python
exceptions (`ValueError`, the PyJWT error classes, `UnicodeEncodeError`)
become `Except` / `Option` results.  JWTs are embedded as a claim list
plus the signing key (signature verification is modelled as equality of
the signing and verifying key), while SHA-256 and base64url are computed
concretely, byte for byte.
-/

namespace Sokosumi

/-- `MCP_SERVER_URL` in `oauth.py` (the default value; the module reads it
from the environment once at import time and it is constant afterwards). -/
def MCP_SERVER_URL : String := "https://sokosumi-mcp-production.up.railway.app"

/-- `ACCESS_TOKEN_EXPIRY = 3600` (seconds). -/
def ACCESS_TOKEN_EXPIRY : Nat := 3600

/-- `REFRESH_TOKEN_EXPIRY = 86400 * 30` (seconds). -/
def REFRESH_TOKEN_EXPIRY : Nat := 86400 * 30

/-- `AUTH_CODE_EXPIRY = 600` (seconds). -/
def AUTH_CODE_EXPIRY : Nat := 600

/-! ## Association-list stores

The three module-level dicts are embedded as association lists with
dict semantics: `storeLookup` is `d.get(k)`, `storeInsert` is
`d[k] = v` (overwriting any previous binding), `storeErase` is
`d.pop(k, None)` / `del d[k]`. -/

/-- Dictionary lookup `d.get(k)`. -/
def storeLookup {α : Type} (s : List (String × α)) (k : String) : Option α :=
  (s.find? (fun kv => kv.1 == k)).map (·.2)

/-- Dictionary removal `d.pop(k, None)` / `del d[k]` (removes every
binding of `k`, so the model also behaves on ill-formed duplicate-key
lists the way a dict behaves). -/
def storeErase {α : Type} (s : List (String × α)) (k : String) : List (String × α) :=
  s.filter (fun kv => kv.1 != k)

/-- Dictionary update `d[k] = v`. -/
def storeInsert {α : Type} (s : List (String × α)) (k : String) (v : α) : List (String × α) :=
  (k, v) :: storeErase s k

/-! ## Data model -/

/-- The payload stored in `_oauth_sessions` by `create_authorization_session`. -/
structure SessionData where
  client_id : String
  redirect_uri : String
  code_challenge : String
  code_challenge_method : String
  scope : String
  state : String
  resource : Option String
  created_at : Nat
deriving DecidableEq, Repr

/-- The payload stored in `_auth_codes` by `create_authorization_code`:
all the session fields plus `user_id`, `api_key`, `code_created_at`. -/
structure AuthCodeData where
  session : SessionData
  user_id : String
  api_key : String
  code_created_at : Nat
deriving DecidableEq, Repr

/-- The payload stored in `_refresh_tokens` by `_create_refresh_token`. -/
structure RefreshData where
  user_id : String
  api_key : String
  scope : String
  client_id : String
  created_at : Nat
deriving DecidableEq, Repr

/-- The process-wide mutable state of `oauth.py`: the three module-level
dictionaries. -/
structure OAuthState where
  oauth_sessions : List (String × SessionData)
  auth_codes : List (String × AuthCodeData)
  refresh_tokens : List (String × RefreshData)
deriving DecidableEq, Repr

/-- A JSON claim value (the payloads only ever hold strings and
integer timestamps). -/
inductive ClaimValue where
  | str (s : String)
  | num (n : Nat)
deriving DecidableEq, Repr

/-- A JWT payload: the ordered claim set `jwt.encode` serialises. -/
abbrev Payload : Type := List (String × ClaimValue)

/-- `payload.get(name)`. -/
def getClaim (p : Payload) (name : String) : Option ClaimValue :=
  (p.find? (fun kv => kv.1 == name)).map (·.2)

/-- `payload.get(name)` when a string is expected. -/
def getStrClaim (p : Payload) (name : String) : Option String :=
  match getClaim p name with
  | some (.str s) => some s
  | _ => none

/-- `int(payload[name])` when a numeric timestamp is expected. -/
def getNumClaim (p : Payload) (name : String) : Option Nat :=
  match getClaim p name with
  | some (.num n) => some n
  | _ => none

/-- The RSA keypair of the key manager, seen through its public numbers
`(n, e)` and the key id: `get_keys()` returns one fixed keypair per
process.  The private key is identified with the pair, so "signed with
the private key of `k`" is modelled as carrying `k` itself. -/
structure Keypair where
  n : Nat
  e : Nat
  kid : String
deriving DecidableEq, Repr

/-- A signed JWT as produced by `jwt.encode(payload, private_key,
algorithm="RS256", headers={"kid": key_id})`: the claim set, the `kid`
header, and the keypair whose private key signed it. -/
structure Jwt where
  payload : Payload
  kid : String
  signedWith : Keypair
deriving DecidableEq, Repr

/-! ## SHA-256 (`hashlib.sha256`)

Bytes are `Nat`s below 256; 32-bit words are `Nat`s reduced mod `2^32`.
The implementation follows FIPS 180-4 exactly, as `hashlib` does. -/

/-- Truncate to a 32-bit word. -/
def w32 (x : Nat) : Nat := x % 4294967296

/-- 32-bit right rotation. -/
def rotr32 (k x : Nat) : Nat := w32 ((x >>> k) ||| (x <<< (32 - k)))

/-- The 64 SHA-256 round constants. -/
def shaK : List Nat :=
  [1116352408, 1899447441, 3049323471, 3921009573, 961987163,
   1508970993, 2453635748, 2870763221, 3624381080, 310598401,
   607225278, 1426881987, 1925078388, 2162078206, 2614888103,
   3248222580, 3835390401, 4022224774, 264347078, 604807628,
   770255983, 1249150122, 1555081692, 1996064986, 2554220882,
   2821834349, 2952996808, 3210313671, 3336571891, 3584528711,
   113926993, 338241895, 666307205, 773529912, 1294757372,
   1396182291, 1695183700, 1986661051, 2177026350, 2456956037,
   2730485921, 2820302411, 3259730800, 3345764771, 3516065817,
   3600352804, 4094571909, 275423344, 430227734, 506948616,
   659060556, 883997877, 958139571, 1322822218, 1537002063,
   1747873779, 1955562222, 2024104815, 2227730452, 2361852424,
   2428436474, 2756734187, 3204031479, 3329325298]

/-- The SHA-256 initial hash value. -/
def shaH0 : List Nat :=
  [1779033703, 3144134277, 1013904242, 2773480762,
   1359893119, 2600822924, 528734635, 1541459225]

/-- Pack big-endian 4-byte groups into 32-bit words. -/
def bytesToWords : List Nat → List Nat
  | a :: b :: c :: d :: rest => (a * 16777216 + b * 65536 + c * 256 + d) :: bytesToWords rest
  | _ => []

/-- Big-endian bytes of `x`, `len` bytes wide (`x.to_bytes(len, 'big')`
without the overflow check). -/
def natToBytesBE : Nat → Nat → List Nat
  | _, 0 => []
  | x, len + 1 => natToBytesBE (x / 256) len ++ [x % 256]

/-- SHA-256 message padding: `0x80`, zeros to 56 mod 64, then the 64-bit
big-endian bit length. -/
def sha256pad (msg : List Nat) : List Nat :=
  let padlen := (119 - msg.length % 64) % 64
  msg ++ [0x80] ++ List.replicate padlen 0 ++ natToBytesBE (8 * msg.length) 8

/-- Extend the 16 message words of a block to the 64-entry schedule. -/
def shaSchedule (ws : Array Nat) : Array Nat :=
  (List.range 48).foldl
    (fun w i =>
      let t := i + 16
      let x15 := w.getD (t - 15) 0
      let x2 := w.getD (t - 2) 0
      let s0 := (rotr32 7 x15) ^^^ (rotr32 18 x15) ^^^ (x15 >>> 3)
      let s1 := (rotr32 17 x2) ^^^ (rotr32 19 x2) ^^^ (x2 >>> 10)
      w.push (w32 (w.getD (t - 16) 0 + s0 + w.getD (t - 7) 0 + s1)))
    ws

/-- One round of the SHA-256 compression function. -/
def shaRound (st : List Nat) (k wt : Nat) : List Nat :=
  match st with
  | [a, b, c, d, e, f, g, h] =>
    let s1 := (rotr32 6 e) ^^^ (rotr32 11 e) ^^^ (rotr32 25 e)
    let ch := (e &&& f) ^^^ ((4294967295 - e) &&& g)
    let t1 := w32 (h + s1 + ch + k + wt)
    let s0 := (rotr32 2 a) ^^^ (rotr32 13 a) ^^^ (rotr32 22 a)
    let mj := (a &&& b) ^^^ (a &&& c) ^^^ (b &&& c)
    let t2 := w32 (s0 + mj)
    [w32 (t1 + t2), a, b, c, w32 (d + t1), e, f, g]
  | other => other

/-- Compress one 64-byte block into the running hash. -/
def shaBlock (h : List Nat) (block : List Nat) : List Nat :=
  let ws := shaSchedule (bytesToWords block).toArray
  let st := (shaK.zip ws.toList).foldl (fun st kw => shaRound st kw.1 kw.2) h
  (h.zip st).map (fun p => w32 (p.1 + p.2))

/-- Split a list into 64-byte blocks (with a structural fuel argument so
that the kernel can evaluate it; the fuel is always sufficient below). -/
def chunksAux : Nat → List Nat → List (List Nat)
  | 0, _ => []
  | _, [] => []
  | fuel + 1, l => l.take 64 :: chunksAux fuel (l.drop 64)

/-- Split the padded message into 64-byte blocks. -/
def chunks64 (l : List Nat) : List (List Nat) := chunksAux l.length l

/-- `hashlib.sha256(msg).digest()`: the 32-byte SHA-256 digest. -/
def sha256 (msg : List Nat) : List Nat :=
  let final := (chunks64 (sha256pad msg)).foldl shaBlock shaH0
  final.flatMap (fun wd => natToBytesBE wd 4)

/-! ## base64url (`base64.urlsafe_b64encode(...).rstrip(b'=')`) -/

/-- The URL-safe base64 alphabet. -/
def b64alphabet : List Char :=
  "ABCDEFGHIJKLMNOPQRSTUVWXYZabcdefghijklmnopqrstuvwxyz0123456789-_".data

/-- Character for a 6-bit group. -/
def b64char (i : Nat) : Char := b64alphabet.getD (i % 64) 'A'

/-- base64url encoding without padding: `urlsafe_b64encode(bs).rstrip(b'=')`. -/
def b64urlNoPad : List Nat → List Char
  | a :: b :: c :: rest =>
      b64char (a / 4) :: b64char ((a % 4) * 16 + b / 16) ::
      b64char ((b % 16) * 4 + c / 64) :: b64char (c % 64) :: b64urlNoPad rest
  | [a, b] => [b64char (a / 4), b64char ((a % 4) * 16 + b / 16), b64char ((b % 16) * 4)]
  | [a] => [b64char (a / 4), b64char ((a % 4) * 16)]
  | [] => []

/-- Index of a character in the base64url alphabet (used by a verifier
decoding a JWKS entry back into key numbers). -/
def b64index (c : Char) : Nat := b64alphabet.indexOf c

/-- base64url decoding of an unpadded encoding back to bytes. -/
def b64urlDecode : List Char → List Nat
  | c1 :: c2 :: c3 :: c4 :: rest =>
      (b64index c1 * 4 + b64index c2 / 16) ::
      ((b64index c2 % 16) * 16 + b64index c3 / 4) ::
      ((b64index c3 % 4) * 64 + b64index c4) :: b64urlDecode rest
  | [c1, c2, c3] =>
      [b64index c1 * 4 + b64index c2 / 16,
       (b64index c2 % 16) * 16 + b64index c3 / 4]
  | [c1, c2] => [b64index c1 * 4 + b64index c2 / 16]
  | _ => []

/-- Big-endian bytes back to an integer (`int.from_bytes(bs, 'big')`). -/
def bytesToNatBE (bs : List Nat) : Nat := bs.foldl (fun acc b => acc * 256 + b) 0

/-! ## PKCE helpers (`oauth.py` lines 184-204) -/

/-- `s.encode('ascii')`: the byte string of an ASCII-only string, or a
raised `UnicodeEncodeError` (`none`) when a character is outside ASCII. -/
def asciiEncode (s : String) : Option (List Nat) :=
  if s.data.all (fun c => c.toNat < 128) then some (s.data.map Char.toNat) else none

/-- `secrets.token_urlsafe(nbytes)` applied to the bytes the entropy
source produced: base64url without padding. -/
def token_urlsafe (randomBytes : List Nat) : String :=
  String.mk (b64urlNoPad randomBytes)

/-- `generate_code_verifier()`: `secrets.token_urlsafe(64)[:128]`, with the
64 random bytes passed explicitly (Python string slicing is `List.take`
on the characters). -/
def generate_code_verifier (randomBytes : List Nat) : String :=
  String.mk ((b64urlNoPad randomBytes).take 128)

/-- `generate_code_challenge(verifier)`: base64url-no-padding of
SHA-256 of the ASCII encoding of the verifier (`none` when `.encode('ascii')`
raises). -/
def generate_code_challenge (verifier : String) : Option String :=
  (asciiEncode verifier).map (fun bs => String.mk (b64urlNoPad (sha256 bs)))

/-- `secrets.compare_digest(a, b)` on `str` arguments: constant-time
comparison — functionally, equality — but it raises `TypeError` (`none`)
when either string contains a non-ASCII character, rather than
returning `False`. -/
def compare_digest (a b : String) : Option Bool :=
  if (∀ c ∈ a.data, c.toNat < 128) ∧ (∀ c ∈ b.data, c.toNat < 128)
  then some (a == b) else none

/-- `verify_code_challenge(verifier, challenge)`:
`secrets.compare_digest(expected, challenge)` (`none` when computing
`expected` raises `UnicodeEncodeError`, or when `compare_digest` raises
`TypeError` on a non-ASCII argument). -/
def verify_code_challenge (verifier challenge : String) : Option Bool :=
  match generate_code_challenge verifier with
  | none => none
  | some expected => compare_digest expected challenge

/-! ## Key manager and JWKS (`oauth.py` lines 54-135) -/

/-- One entry of the JWKS document returned by `get_jwks`. -/
structure Jwk where
  kty : String
  use : String
  alg : String
  kid : String
  n : String
  e : String
deriving DecidableEq, Repr

/-- The JWKS document `{"keys": [...]}`. -/
structure JwksDoc where
  keys : List Jwk
deriving DecidableEq, Repr

/-- `int_to_base64url(n, length)` from `get_jwks`:
`base64.urlsafe_b64encode(n.to_bytes(length, 'big')).rstrip(b'=')`;
`to_bytes` raises `OverflowError` (`none`) when `n` does not fit. -/
def int_to_base64url (x len : Nat) : Option String :=
  if x < 256 ^ len then some (String.mk (b64urlNoPad (natToBytesBE x len))) else none

/-- `get_jwks()` for the keypair currently held by the key manager:
a single entry with `kty="RSA"`, `use="sig"`, `alg="RS256"`, the current
kid, and the public numbers encoded 256- and 3-bytes-wide. -/
def get_jwks (key : Keypair) : Option JwksDoc :=
  match int_to_base64url key.n 256, int_to_base64url key.e 3 with
  | some nStr, some eStr =>
      some { keys := [{ kty := "RSA", use := "sig", alg := "RS256",
                        kid := key.kid, n := nStr, e := eStr }] }
  | _, _ => none

/-- Decoding a JWKS `n`/`e` field back into the key number: base64url
decode, then big-endian bytes to integer. -/
def decode_b64url_int (s : String) : Nat := bytesToNatBE (b64urlDecode s.data)

/-! ## Token service (`oauth.py` lines 405-498) -/

/-- `_create_access_token(user_id, api_key, scope, client_id)` at time
`now`, with the random `jti` passed explicitly and the signing keypair
from `get_keys()`: the exact claim set of `oauth.py` lines 416-427,
signed RS256 under the key's kid. -/
def _create_access_token (user_id api_key scope client_id : String)
    (now : Nat) (jti : String) (key : Keypair) : Jwt :=
  { payload :=
      [("iss", .str MCP_SERVER_URL),
       ("sub", .str user_id),
       ("aud", .str MCP_SERVER_URL),
       ("exp", .num (now + ACCESS_TOKEN_EXPIRY)),
       ("iat", .num now),
       ("nbf", .num now),
       ("jti", .str jti),
       ("scope", .str scope),
       ("client_id", .str client_id),
       ("api_key", .str api_key)],
    kid := key.kid,
    signedWith := key }

/-- The two failure kinds of `validate_access_token`:
`jwt.ExpiredSignatureError` versus every other `jwt.InvalidTokenError`. -/
inductive TokenError where
  | TokenExpired
  | TokenInvalid
deriving DecidableEq, Repr

/-- The tail of PyJWT claim validation: `exp` (expired iff `exp <= now`,
leeway 0), then issuer, then audience. -/
def checkExpIssAud (now : Nat) (p : Payload) : Except TokenError Payload :=
  match getClaim p "exp" with
  | some (.num exp) =>
      if exp ≤ now then .error .TokenExpired
      else if getStrClaim p "iss" ≠ some MCP_SERVER_URL then .error .TokenInvalid
      else if getStrClaim p "aud" ≠ some MCP_SERVER_URL then .error .TokenInvalid
      else .ok p
  | _ => .error .TokenInvalid

/-- `validate_access_token(token)` at time `now` with the verification
key from `get_keys()`: signature check (modelled as equality of signing
and verifying keypair), required claims `exp, iat, sub, aud, iss`, then
PyJWT's `iat` (must be numeric), `nbf` (immature iff `nbf > now`), `exp`,
`iss`, `aud` checks, in PyJWT's order.  Only an expired `exp` yields
`TokenExpired`. -/
def validate_access_token (key : Keypair) (now : Nat) (t : Jwt) :
    Except TokenError Payload :=
  if t.signedWith = key then
    if ["exp", "iat", "sub", "aud", "iss"].all (fun c => (getClaim t.payload c).isSome) then
      match getClaim t.payload "iat" with
      | some (.num _) =>
          match getClaim t.payload "nbf" with
          | some (.num nbf) =>
              if now < nbf then .error .TokenInvalid else checkExpIssAud now t.payload
          | some (.str _) => .error .TokenInvalid
          | none => checkExpIssAud now t.payload
      | _ => .error .TokenInvalid
    else .error .TokenInvalid
  else .error .TokenInvalid

/-! ## Session / code / refresh stores (`oauth.py` lines 207-454, 501-530) -/

/-- `_cleanup_expired_sessions()` at time `now`: drop every session and
auth code older than `AUTH_CODE_EXPIRY` and every refresh token older
than `REFRESH_TOKEN_EXPIRY` (strict `>` comparisons, as in the source). -/
def _cleanup_expired_sessions (st : OAuthState) (now : Nat) : OAuthState :=
  { oauth_sessions :=
      st.oauth_sessions.filter (fun kv => decide (now - kv.2.created_at ≤ AUTH_CODE_EXPIRY)),
    auth_codes :=
      st.auth_codes.filter (fun kv => decide (now - kv.2.code_created_at ≤ AUTH_CODE_EXPIRY)),
    refresh_tokens :=
      st.refresh_tokens.filter (fun kv => decide (now - kv.2.created_at ≤ REFRESH_TOKEN_EXPIRY)) }

/-- `create_authorization_session(...)` at time `now`, with the random
session id passed explicitly: store the pending session, then run the
opportunistic cleanup sweep. -/
def create_authorization_session (st : OAuthState) (session_id : String)
    (client_id redirect_uri code_challenge code_challenge_method scope state : String)
    (resource : Option String) (now : Nat) : OAuthState :=
  let st' := { st with
    oauth_sessions := storeInsert st.oauth_sessions session_id
      { client_id := client_id, redirect_uri := redirect_uri,
        code_challenge := code_challenge, code_challenge_method := code_challenge_method,
        scope := scope, state := state, resource := resource, created_at := now } }
  _cleanup_expired_sessions st' now

/-- `get_authorization_session(session_id)` at time `now`: lookup with
lazy expiry (an expired entry is deleted and `None` returned). -/
def get_authorization_session (st : OAuthState) (now : Nat) (session_id : String) :
    Option SessionData × OAuthState :=
  match storeLookup st.oauth_sessions session_id with
  | none => (none, st)
  | some s =>
      if now - s.created_at > AUTH_CODE_EXPIRY then
        (none, { st with oauth_sessions := storeErase st.oauth_sessions session_id })
      else (some s, st)

/-- `create_authorization_code(session_id, user_id, api_key)` at time
`now`, with the random code passed explicitly: pop the session
(`ValueError` — `none` — when absent) and store the code data. -/
def create_authorization_code (st : OAuthState) (session_id user_id api_key : String)
    (code : String) (now : Nat) : Option (String × OAuthState) :=
  match storeLookup st.oauth_sessions session_id with
  | none => none
  | some s =>
      some (code,
        { st with
          oauth_sessions := storeErase st.oauth_sessions session_id,
          auth_codes := storeInsert st.auth_codes code
            { session := s, user_id := user_id, api_key := api_key, code_created_at := now } })

/-- `_create_refresh_token(user_id, api_key, scope, client_id)` at time
`now`, with the random token passed explicitly: store and return it. -/
def _create_refresh_token (st : OAuthState) (token : String)
    (user_id api_key scope client_id : String) (now : Nat) : OAuthState :=
  let td : RefreshData :=
    { user_id := user_id, api_key := api_key, scope := scope,
      client_id := client_id, created_at := now }
  { st with refresh_tokens := storeInsert st.refresh_tokens token td }

/-- The JSON body returned by `exchange_code_for_tokens` and
`refresh_access_token`. -/
structure TokenResponse where
  access_token : Jwt
  token_type : String
  expires_in : Nat
  refresh_token : String
  scope : String
deriving DecidableEq, Repr

/-- `exchange_code_for_tokens(code, code_verifier, client_id, redirect_uri)`
at time `now`; `jti` and `freshRefresh` are the random strings drawn for
the new tokens and `key` the signing keypair.  The outer `Option` is
`none` when `verify_code_challenge` raises (`UnicodeEncodeError` on a
non-ASCII verifier or `TypeError` out of `compare_digest` — both
non-`ValueError`s that would propagate); the `Except` carries the
`ValueError` message.  The code is popped before any validation. -/
def exchange_code_for_tokens (st : OAuthState) (now : Nat) (jti freshRefresh : String)
    (key : Keypair) (code code_verifier client_id redirect_uri : String) :
    Option (Except String TokenResponse) × OAuthState :=
  match storeLookup st.auth_codes code with
  | none => (some (.error "Invalid authorization code"), st)
  | some auth_data =>
      let st := { st with auth_codes := storeErase st.auth_codes code }
      if now - auth_data.code_created_at > AUTH_CODE_EXPIRY then
        (some (.error "Authorization code expired"), st)
      else if auth_data.session.client_id ≠ client_id then
        (some (.error "Client ID mismatch"), st)
      else if auth_data.session.redirect_uri ≠ redirect_uri then
        (some (.error "Redirect URI mismatch"), st)
      else if auth_data.session.code_challenge_method ≠ "S256" then
        (some (.error "Unsupported code challenge method"), st)
      else
        match verify_code_challenge code_verifier auth_data.session.code_challenge with
        | none => (none, st)
        | some false => (some (.error "Invalid code verifier"), st)
        | some true =>
            let access := _create_access_token auth_data.user_id auth_data.api_key
              auth_data.session.scope client_id now jti key
            let st := _create_refresh_token st freshRefresh auth_data.user_id
              auth_data.api_key auth_data.session.scope client_id now
            (some (.ok
              { access_token := access, token_type := "Bearer",
                expires_in := ACCESS_TOKEN_EXPIRY, refresh_token := freshRefresh,
                scope := auth_data.session.scope }), st)

/-- `refresh_access_token(refresh_token)` at time `now`; `jti` and
`freshRefresh` are the random strings for the new tokens.  Lookup, lazy
expiry (deleting), new access token, rotation: delete the old entry and
store a brand-new refresh token. -/
def refresh_access_token (st : OAuthState) (now : Nat) (jti freshRefresh : String)
    (key : Keypair) (refresh_token : String) :
    Except String TokenResponse × OAuthState :=
  match storeLookup st.refresh_tokens refresh_token with
  | none => (.error "Invalid refresh token", st)
  | some td =>
      if now - td.created_at > REFRESH_TOKEN_EXPIRY then
        (.error "Refresh token expired",
         { st with refresh_tokens := storeErase st.refresh_tokens refresh_token })
      else
        let access := _create_access_token td.user_id td.api_key td.scope td.client_id now jti key
        let st := { st with refresh_tokens := storeErase st.refresh_tokens refresh_token }
        let st := _create_refresh_token st freshRefresh td.user_id td.api_key td.scope
          td.client_id now
        (.ok { access_token := access, token_type := "Bearer",
               expires_in := ACCESS_TOKEN_EXPIRY, refresh_token := freshRefresh,
               scope := td.scope }, st)

/-! ## HTTP handlers (`server.py`) -/

/-- The query parameters of a `GET /oauth/authorize` request; `none` is
an absent parameter (`request.query_params.get` applies the handler's
defaults). -/
structure QueryParams where
  client_id : Option String
  redirect_uri : Option String
  response_type : Option String
  scope : Option String
  state : Option String
  code_challenge : Option String
  code_challenge_method : Option String
  resource : Option String
deriving DecidableEq, Repr

/-- The observable result of `oauth_authorize`: a 400 JSON error body
`{error, error_description}`, or the 302 redirect into the login /
upstream step for the freshly created pending session. -/
inductive AuthorizeResult where
  | err (status : Nat) (error : String) (error_description : String)
  | redirect (status : Nat) (session_id : String)
deriving DecidableEq, Repr

/-- `oauth_authorize(request)` (`server.py` lines 912-976) at time `now`,
with the random session id passed explicitly.  Parameter extraction with
the source's defaults (absent `scope` becomes `"mcp:read mcp:write"`),
then the validation chain; only when every check passes is a pending
session created (the source's `create_mcp_session` stores exactly the
fields `create_authorization_session` stores, which embeds it here), and
a 302 redirect issued. -/
def oauth_authorize (st : OAuthState) (now : Nat) (session_id : String)
    (q : QueryParams) : AuthorizeResult × OAuthState :=
  let client_id := q.client_id.getD ""
  let redirect_uri := q.redirect_uri.getD ""
  let response_type := q.response_type.getD ""
  let scope := q.scope.getD "mcp:read mcp:write"
  let state := q.state.getD ""
  let code_challenge := q.code_challenge.getD ""
  let code_challenge_method := q.code_challenge_method.getD ""
  if response_type ≠ "code" then
    (.err 400 "unsupported_response_type" "Only 'code' response type is supported", st)
  else if client_id = "" then
    (.err 400 "invalid_request" "client_id is required", st)
  else if redirect_uri = "" then
    (.err 400 "invalid_request" "redirect_uri is required", st)
  else if code_challenge = "" then
    (.err 400 "invalid_request" "code_challenge is required (PKCE)", st)
  else if code_challenge_method ≠ "S256" then
    (.err 400 "invalid_request" "code_challenge_method must be S256", st)
  else
    let st' := create_authorization_session st session_id client_id redirect_uri
      code_challenge code_challenge_method scope state q.resource now
    (.redirect 302 session_id, st')

/-- The form fields of a `POST /oauth/token` request (`form.get` with
default `""`). -/
structure TokenForm where
  grant_type : String
  code : String
  code_verifier : String
  client_id : String
  redirect_uri : String
  refresh_token : String
deriving DecidableEq, Repr

/-- The observable result of `oauth_token`: the 200 token JSON or a 400
`{error, error_description}` body. -/
inductive HttpTokenResult where
  | ok (resp : TokenResponse)
  | err (status : Nat) (error : String) (error_description : String)
deriving DecidableEq, Repr

/-- `oauth_token(request)` (`server.py` lines 1095-1152) at time `now`:
dispatch on `grant_type`, check required form fields (Python truthiness:
absent fields default to `""`), call into the token service, and map
every `ValueError` to a 400 `invalid_grant` body carrying the message.
The outer `Option` is `none` on the one exception the handler does not
catch (`UnicodeEncodeError` out of PKCE verification). -/
def oauth_token (st : OAuthState) (now : Nat) (jti freshRefresh : String)
    (key : Keypair) (form : TokenForm) : Option HttpTokenResult × OAuthState :=
  if form.grant_type = "authorization_code" then
    if form.code = "" ∨ form.code_verifier = "" ∨ form.client_id = "" ∨ form.redirect_uri = "" then
      (some (.err 400 "invalid_request" "Missing required parameters"), st)
    else
      match exchange_code_for_tokens st now jti freshRefresh key
        form.code form.code_verifier form.client_id form.redirect_uri with
      | (none, st') => (none, st')
      | (some (.error e), st') => (some (.err 400 "invalid_grant" e), st')
      | (some (.ok tokens), st') => (some (.ok tokens), st')
  else if form.grant_type = "refresh_token" then
    if form.refresh_token = "" then
      (some (.err 400 "invalid_request" "refresh_token is required"), st)
    else
      match refresh_access_token st now jti freshRefresh key form.refresh_token with
      | (.error e, st') => (some (.err 400 "invalid_grant" e), st')
      | (.ok tokens, st') => (some (.ok tokens), st')
  else
    (some (.err 400 "unsupported_grant_type" "Supported: authorization_code, refresh_token"), st)

/-! ## Request authentication middleware (`server.py` lines 104-128) -/

/-- The request-scoped outcome of a Bearer-token `dispatch`: which user
payload was attached to the request, and what `current_api_key` was set
to for downstream proxied API calls. -/
structure DispatchAuthState where
  current_user : Option Payload
  current_api_key : Option String
deriving DecidableEq, Repr

/-- Lines 113-118 of `AuthenticationMiddleware.dispatch`: the credential
used for downstream API calls is `user_payload.get('sokosumi_token')`
(set only when present and truthy, i.e. a non-empty string). -/
def extract_downstream_credential (p : Payload) : Option String :=
  match getStrClaim p "sokosumi_token" with
  | some s => if s = "" then none else some s
  | none => none

/-- The Bearer branch of `AuthenticationMiddleware.dispatch`
(`server.py` lines 104-128): validate the token; on success attach the
payload as `current_user` and set `current_api_key` from the
`sokosumi_token` claim; on failure the request is rejected with 401. -/
def dispatch_bearer (key : Keypair) (now : Nat) (bearer : Jwt) :
    Except TokenError DispatchAuthState :=
  match validate_access_token key now bearer with
  | .error e => .error e
  | .ok payload =>
      .ok { current_user := some payload,
            current_api_key := extract_downstream_credential payload }

/-! ## The local-mode login endpoint -/

/-- The observable result of `POST /oauth/login`: a redirect back to the
client, or a re-rendered login page (`get_login_page_html`) with an
error message. -/
inductive LoginResult where
  | redirect (status : Nat) (redirect_uri code state : String)
  | loginPage (status : Nat) (session_id : String) (error : Option String)
deriving DecidableEq, Repr

/-- Modelled from the spec: the `POST /oauth/login` handler (local mode)
is absent from the sources — only its collaborators
(`get_login_page_html`, whose form posts `session_id` and `api_key` to
`/oauth/login`, and the session/code stores) are present.  Per the spec:
form fields `session_id` and a credential; a valid credential for an
unexpired session pops the PendingSession, mints an AuthorizationCode
and 302-redirects to the session's `redirect_uri` with `code` and the
client's original `state`; a bad credential or expired session
re-renders the login page with 400.  `validateCredential` models the
external identity collaborator (the "who am I" call), returning the user
id accepted for a credential; `freshCode` is the random code drawn.  The
session lookup and code minting are the source's
`get_authorization_session` / `create_authorization_code`. -/
def oauth_login (validateCredential : String → Option String)
    (st : OAuthState) (now : Nat) (freshCode : String)
    (session_id credential : String) : LoginResult × OAuthState :=
  match get_authorization_session st now session_id with
  | (none, st') => (.loginPage 400 session_id (some "Invalid or expired session"), st')
  | (some s, st') =>
      match validateCredential credential with
      | none => (.loginPage 400 session_id (some "Invalid API key"), st')
      | some user_id =>
          match create_authorization_code st' session_id user_id credential freshCode now with
          | none => (.loginPage 400 session_id (some "Invalid or expired session"), st')
          | some (code, st'') => (.redirect 302 s.redirect_uri code s.state, st'')

/-! ## Store lemmas -/

/-- Lookup on a cons cell. -/
theorem storeLookup_cons {α : Type} (a : String × α) (t : List (String × α)) (k : String) :
    storeLookup (a :: t) k = if a.1 = k then some a.2 else storeLookup t k := by
  by_cases h : a.1 = k <;> simp [storeLookup, List.find?_cons, h]

/-- Erase on a cons cell. -/
theorem storeErase_cons {α : Type} (a : String × α) (t : List (String × α)) (k : String) :
    storeErase (a :: t) k = if a.1 = k then storeErase t k else a :: storeErase t k := by
  by_cases h : a.1 = k <;> simp [storeErase, List.filter_cons, h]

/-- A key is gone after `pop`/`del`. -/
theorem storeLookup_erase_self {α : Type} (l : List (String × α)) (k : String) :
    storeLookup (storeErase l k) k = none := by
  induction l with
  | nil => rfl
  | cons a t ih =>
      by_cases h : a.1 = k <;> simp [storeErase_cons, storeLookup_cons, h, ih]

/-- `pop`/`del` leaves other keys alone. -/
theorem storeLookup_erase_ne {α : Type} (l : List (String × α)) (k k' : String) (h : k ≠ k') :
    storeLookup (storeErase l k') k = storeLookup l k := by
  induction l with
  | nil => rfl
  | cons a t ih =>
      by_cases ha : a.1 = k' <;> by_cases hb : a.1 = k <;>
        simp_all [storeErase_cons, storeLookup_cons]

/-- Lookup finds what was just stored. -/
theorem storeLookup_insert_self {α : Type} (l : List (String × α)) (k : String) (v : α) :
    storeLookup (storeInsert l k v) k = some v := by
  simp [storeInsert, storeLookup_cons]

/-- Storing under one key leaves other keys alone. -/
theorem storeLookup_insert_ne {α : Type} (l : List (String × α)) (k k' : String) (v : α)
    (h : k ≠ k') : storeLookup (storeInsert l k' v) k = storeLookup l k := by
  simp [storeInsert, storeLookup_cons, Ne.symm h, storeLookup_erase_ne l k k' h]

/-- The code is popped from `_auth_codes` as the first step of
`exchange_code_for_tokens`, on every control path. -/
theorem exchange_pops_code (st : OAuthState) (now : Nat) (jti rt : String) (key : Keypair)
    (code v c r : String) :
    storeLookup (exchange_code_for_tokens st now jti rt key code v c r).2.auth_codes code
      = none := by
  unfold exchange_code_for_tokens
  cases hfind : storeLookup st.auth_codes code with
  | none => simp [hfind]
  | some ad =>
      simp only [hfind]
      split <;> try (simp [storeLookup_erase_self])
      split <;> try (simp [storeLookup_erase_self])
      split <;> try (simp [storeLookup_erase_self])
      split <;> try (simp [storeLookup_erase_self])
      split <;> simp [_create_refresh_token, storeLookup_erase_self]

/-- Every emitted character is from the URL-safe alphabet. -/
theorem b64char_mem (i : Nat) : b64char i ∈ b64alphabet := by
  have h64 : b64alphabet.length = 64 := by decide
  have h : i % 64 < b64alphabet.length := by
    rw [h64]; exact Nat.mod_lt _ (by norm_num)
  rw [b64char, List.getD_eq_getElem b64alphabet 'A' h]
  exact List.getElem_mem h

/-- Every character of an encoding is from the URL-safe alphabet. -/
theorem b64urlNoPad_mem (l : List Nat) : ∀ ch ∈ b64urlNoPad l, ch ∈ b64alphabet := by
  match l with
  | [] => simp [b64urlNoPad]
  | [a] => simp [b64urlNoPad, b64char_mem]
  | [a, b] => simp [b64urlNoPad, b64char_mem]
  | a :: b :: c :: rest =>
      have ih := b64urlNoPad_mem rest
      simp only [b64urlNoPad, List.mem_cons]
      rintro ch (rfl | rfl | rfl | rfl | hch)
      any_goals exact b64char_mem _
      exact ih ch hch

/-- The URL-safe alphabet is ASCII. -/
theorem b64alphabet_ascii : ∀ c ∈ b64alphabet, c.toNat < 128 := by decide

/-- Every challenge `generate_code_challenge` produces is ASCII (it is a
base64url string), so `compare_digest` never raises on `expected`. -/
theorem generate_code_challenge_ascii (v ch : String)
    (h : generate_code_challenge v = some ch) : ∀ c ∈ ch.data, c.toNat < 128 := by
  unfold generate_code_challenge at h
  cases he : asciiEncode v with
  | none => rw [he] at h; simp at h
  | some bs =>
      rw [he] at h
      simp only [Option.map_some'] at h
      injection h with h
      subst h
      intro c hc
      exact b64alphabet_ascii c (b64urlNoPad_mem _ c hc)

/-- On ASCII arguments `compare_digest` is equality. -/
theorem compare_digest_eq (a b : String)
    (ha : ∀ c ∈ a.data, c.toNat < 128) (hb : ∀ c ∈ b.data, c.toNat < 128) :
    compare_digest a b = some (a == b) := by
  unfold compare_digest
  rw [if_pos ⟨ha, hb⟩]

/-! ## Claims -/

/-- C1: an authorization code is single-use.  Whatever the outcome of a
first `exchange_code_for_tokens` attempt on `code` (success, any
validation failure, or even a raised encoding error inside PKCE), the
code is no longer in `_auth_codes` afterwards, and a second exchange
attempt through the `/oauth/token` handler — with any verifier,
client_id and redirect_uri, hence also the correct ones — fails with
error `invalid_grant`. -/
theorem auth_code_single_use (st : OAuthState) (now now2 : Nat)
    (jti1 rt1 jti2 rt2 : String) (key key2 : Keypair)
    (code v1 c1 r1 v2 c2 r2 : String)
    (hcode : code ≠ "") (hv : v2 ≠ "") (hc : c2 ≠ "") (hr : r2 ≠ "") :
    storeLookup (exchange_code_for_tokens st now jti1 rt1 key code v1 c1 r1).2.auth_codes code
      = none ∧
    (oauth_token (exchange_code_for_tokens st now jti1 rt1 key code v1 c1 r1).2 now2 jti2 rt2 key2
      { grant_type := "authorization_code", code := code, code_verifier := v2,
        client_id := c2, redirect_uri := r2, refresh_token := "" }).1
      = some (.err 400 "invalid_grant" "Invalid authorization code") := by
  have h1 := exchange_pops_code st now jti1 rt1 key code v1 c1 r1
  refine ⟨h1, ?_⟩
  generalize hst1 : (exchange_code_for_tokens st now jti1 rt1 key code v1 c1 r1).2 = st1 at h1 ⊢
  simp only [oauth_token]
  simp [hcode, hv, hc, hr, exchange_code_for_tokens, h1]

/-- Witness for C1 at a concrete first exchange (on an empty code store,
so the first attempt itself fails — the claim covers failed first
attempts too). -/
theorem auth_code_single_use_witness :
    (("c1" : String) ≠ "" ∧ ("v2" : String) ≠ "" ∧ ("cl2" : String) ≠ ""
      ∧ ("r2" : String) ≠ "") ∧
    (storeLookup (exchange_code_for_tokens ⟨[], [], []⟩ 0 "j1" "t1" ⟨1, 1, "k"⟩
        "c1" "v1" "cl1" "r1").2.auth_codes "c1" = none ∧
     (oauth_token (exchange_code_for_tokens ⟨[], [], []⟩ 0 "j1" "t1" ⟨1, 1, "k"⟩
        "c1" "v1" "cl1" "r1").2 5 "j2" "t2" ⟨1, 1, "k"⟩
       { grant_type := "authorization_code", code := "c1", code_verifier := "v2",
         client_id := "cl2", redirect_uri := "r2", refresh_token := "" }).1
       = some (.err 400 "invalid_grant" "Invalid authorization code")) :=
  ⟨⟨by decide, by decide, by decide, by decide⟩,
   auth_code_single_use ⟨[], [], []⟩ 0 5 "j1" "t1" "j2" "t2" ⟨1, 1, "k"⟩ ⟨1, 1, "k"⟩
     "c1" "v1" "cl1" "r1" "v2" "cl2" "r2" (by decide) (by decide) (by decide) (by decide)⟩

/-- C2: refresh tokens rotate on every use.  A successful
`refresh_access_token` on a stored, unexpired token returns a new access
token and a brand-new refresh token, deletes the old entry, and a
subsequent use of the old token through `/oauth/token` fails with
`invalid_grant`. -/
theorem refresh_token_rotation (st : OAuthState) (now now2 : Nat)
    (jti1 new1 jti2 new2 tok : String) (key key2 : Keypair) (td : RefreshData)
    (hlookup : storeLookup st.refresh_tokens tok = some td)
    (hunexp : now - td.created_at ≤ REFRESH_TOKEN_EXPIRY)
    (hfresh : new1 ≠ tok) (htok : tok ≠ "") :
    (refresh_access_token st now jti1 new1 key tok).1 =
      .ok { access_token := _create_access_token td.user_id td.api_key td.scope td.client_id
              now jti1 key,
            token_type := "Bearer", expires_in := 3600, refresh_token := new1,
            scope := td.scope } ∧
    storeLookup (refresh_access_token st now jti1 new1 key tok).2.refresh_tokens tok = none ∧
    storeLookup (refresh_access_token st now jti1 new1 key tok).2.refresh_tokens new1 =
      some { user_id := td.user_id, api_key := td.api_key, scope := td.scope,
             client_id := td.client_id, created_at := now } ∧
    (oauth_token (refresh_access_token st now jti1 new1 key tok).2 now2 jti2 new2 key2
      { grant_type := "refresh_token", code := "", code_verifier := "",
        client_id := "", redirect_uri := "", refresh_token := tok }).1
      = some (.err 400 "invalid_grant" "Invalid refresh token") := by
  have hne : ¬ (now - td.created_at > REFRESH_TOKEN_EXPIRY) := by omega
  have hstate : (refresh_access_token st now jti1 new1 key tok).2.refresh_tokens
      = storeInsert (storeErase st.refresh_tokens tok) new1
          { user_id := td.user_id, api_key := td.api_key, scope := td.scope,
            client_id := td.client_id, created_at := now } := by
    simp [refresh_access_token, hlookup, hne, _create_refresh_token]
  have h2 : storeLookup (refresh_access_token st now jti1 new1 key tok).2.refresh_tokens tok
      = none := by
    rw [hstate, storeLookup_insert_ne _ _ _ _ (Ne.symm hfresh), storeLookup_erase_self]
  have h3 : storeLookup (refresh_access_token st now jti1 new1 key tok).2.refresh_tokens new1 =
      some { user_id := td.user_id, api_key := td.api_key, scope := td.scope,
             client_id := td.client_id, created_at := now } := by
    rw [hstate, storeLookup_insert_self]
  refine ⟨?_, h2, h3, ?_⟩
  · simp [refresh_access_token, hlookup, hne, ACCESS_TOKEN_EXPIRY]
  · generalize hst1 : (refresh_access_token st now jti1 new1 key tok).2 = st1 at h2 ⊢
    simp only [oauth_token]
    simp [htok, refresh_access_token, h2]

/-- Witness for C2 at a concrete store holding one refresh token. -/
theorem refresh_token_rotation_witness :
    (storeLookup (⟨[], [], [("tok1", ⟨"u1", "k1", "s1", "cl1", 0⟩)]⟩ :
        OAuthState).refresh_tokens "tok1" = some ⟨"u1", "k1", "s1", "cl1", 0⟩ ∧
      (7 : Nat) - 0 ≤ REFRESH_TOKEN_EXPIRY ∧ ("tok2" : String) ≠ "tok1"
      ∧ ("tok1" : String) ≠ "") ∧
    ((refresh_access_token ⟨[], [], [("tok1", ⟨"u1", "k1", "s1", "cl1", 0⟩)]⟩ 7 "j1" "tok2"
        ⟨1, 1, "k"⟩ "tok1").1 =
      .ok { access_token := _create_access_token "u1" "k1" "s1" "cl1" 7 "j1" ⟨1, 1, "k"⟩,
            token_type := "Bearer", expires_in := 3600, refresh_token := "tok2",
            scope := "s1" } ∧
     storeLookup (refresh_access_token ⟨[], [], [("tok1", ⟨"u1", "k1", "s1", "cl1", 0⟩)]⟩ 7 "j1"
        "tok2" ⟨1, 1, "k"⟩ "tok1").2.refresh_tokens "tok1" = none ∧
     storeLookup (refresh_access_token ⟨[], [], [("tok1", ⟨"u1", "k1", "s1", "cl1", 0⟩)]⟩ 7 "j1"
        "tok2" ⟨1, 1, "k"⟩ "tok1").2.refresh_tokens "tok2" =
       some { user_id := "u1", api_key := "k1", scope := "s1", client_id := "cl1",
              created_at := 7 } ∧
     (oauth_token (refresh_access_token ⟨[], [], [("tok1", ⟨"u1", "k1", "s1", "cl1", 0⟩)]⟩ 7 "j1"
        "tok2" ⟨1, 1, "k"⟩ "tok1").2 9 "j2" "tok3" ⟨1, 1, "k"⟩
       { grant_type := "refresh_token", code := "", code_verifier := "",
         client_id := "", redirect_uri := "", refresh_token := "tok1" }).1
       = some (.err 400 "invalid_grant" "Invalid refresh token")) :=
  ⟨⟨by decide, by decide, by decide, by decide⟩,
   refresh_token_rotation ⟨[], [], [("tok1", ⟨"u1", "k1", "s1", "cl1", 0⟩)]⟩ 7 9 "j1" "tok2"
     "j2" "tok3" "tok1" ⟨1, 1, "k"⟩ ⟨1, 1, "k"⟩ ⟨"u1", "k1", "s1", "cl1", 0⟩
     (by decide) (by decide) (by decide) (by decide)⟩

/-- C3: the request-authentication path does NOT recover the embedded
credential.  Every token minted by `_create_access_token` carries the
credential under the claim name `api_key`, but
`AuthenticationMiddleware.dispatch` reads the claim `sokosumi_token`,
which is absent — so after successful validation no downstream
credential is set (`current_api_key = none`), contradicting the claim
(and the middleware's own comments). -/
theorem credential_not_recovered (user_id api_key scope client_id : String)
    (now : Nat) (jti : String) (key : Keypair) :
    getStrClaim (_create_access_token user_id api_key scope client_id now jti key).payload
      "api_key" = some api_key ∧
    dispatch_bearer key (now + 10)
        (_create_access_token user_id api_key scope client_id now jti key)
      = .ok { current_user :=
                some (_create_access_token user_id api_key scope client_id now jti key).payload,
              current_api_key := none } := by
  simp [_create_access_token, dispatch_bearer, validate_access_token, checkExpIssAud,
        extract_downstream_credential, getStrClaim, getNumClaim, getClaim,
        ACCESS_TOKEN_EXPIRY, MCP_SERVER_URL, List.find?]

/-- C5: every access token has `iat = nbf = now` and `exp = now + 3600`;
validation 3601 seconds after issuance fails with the expired kind,
3599 seconds after issuance it succeeds and returns the claim set. -/
theorem access_token_lifetime (user_id api_key scope client_id : String)
    (now : Nat) (jti : String) (key : Keypair) :
    getNumClaim (_create_access_token user_id api_key scope client_id now jti key).payload "iat"
      = some now ∧
    getNumClaim (_create_access_token user_id api_key scope client_id now jti key).payload "nbf"
      = some now ∧
    getNumClaim (_create_access_token user_id api_key scope client_id now jti key).payload "exp"
      = some (now + 3600) ∧
    validate_access_token key (now + 3601)
        (_create_access_token user_id api_key scope client_id now jti key)
      = .error .TokenExpired ∧
    validate_access_token key (now + 3599)
        (_create_access_token user_id api_key scope client_id now jti key)
      = .ok (_create_access_token user_id api_key scope client_id now jti key).payload := by
  simp [_create_access_token, validate_access_token, getNumClaim, getClaim, getStrClaim,
        checkExpIssAud, ACCESS_TOKEN_EXPIRY, MCP_SERVER_URL, List.find?]

/-- C4: `GET /oauth/authorize` with a `code_challenge_method` other than
`"S256"` (such as `"plain"`, or absent) is rejected with HTTP 400 and
OAuth error code `invalid_request`, even when `response_type`,
`client_id`, `redirect_uri` and `code_challenge` are all valid, and the
state is returned unchanged — no pending session is created. -/
theorem authorize_rejects_non_s256 (st : OAuthState) (now : Nat) (sid : String)
    (q : QueryParams) (c r ch : String)
    (hrt : q.response_type = some "code")
    (hcid : q.client_id = some c) (hc : c ≠ "")
    (hred : q.redirect_uri = some r) (hr : r ≠ "")
    (hch : q.code_challenge = some ch) (hchne : ch ≠ "")
    (hm : q.code_challenge_method.getD "" ≠ "S256") :
    oauth_authorize st now sid q
      = (.err 400 "invalid_request" "code_challenge_method must be S256", st) := by
  simp [oauth_authorize, hrt, hcid, hred, hch, hc, hr, hchne, hm]

/-- C10: when the `scope` query parameter is absent from an otherwise
valid `GET /oauth/authorize` request, the pending session is created
with the default scope `"mcp:read mcp:write"`, and after minting a code
from that session and successfully exchanging it (correct verifier,
client_id, redirect_uri, within the code TTL) the token response's
`scope` field equals `"mcp:read mcp:write"`. -/
theorem default_scope_flows (st : OAuthState) (now now2 : Nat)
    (sid uid cred codeStr jti rt : String) (key : Keypair) (q : QueryParams)
    (c r ch verifier : String)
    (hscope : q.scope = none)
    (hrt : q.response_type = some "code")
    (hcid : q.client_id = some c) (hc : c ≠ "")
    (hred : q.redirect_uri = some r) (hr : r ≠ "")
    (hch : q.code_challenge = some ch) (hchne : ch ≠ "")
    (hm : q.code_challenge_method = some "S256")
    (hexp : now2 - now ≤ AUTH_CODE_EXPIRY)
    (hpkce : generate_code_challenge verifier = some ch) :
    ∃ s, storeLookup (oauth_authorize st now sid q).2.oauth_sessions sid = some s ∧
      s.scope = "mcp:read mcp:write" ∧
      ∃ stc, create_authorization_code (oauth_authorize st now sid q).2 sid uid cred codeStr now
          = some (codeStr, stc) ∧
        ∃ resp st3,
          exchange_code_for_tokens stc now2 jti rt key codeStr verifier c r
            = (some (.ok resp), st3) ∧
          resp.scope = "mcp:read mcp:write" := by
  have hauth : (oauth_authorize st now sid q).2
      = create_authorization_session st sid c r ch "S256" "mcp:read mcp:write"
          (q.state.getD "") q.resource now := by
    simp [oauth_authorize, hrt, hcid, hred, hch, hscope, hm, hc, hr, hchne]
  have hsess : storeLookup (oauth_authorize st now sid q).2.oauth_sessions sid
      = some ⟨c, r, ch, "S256", "mcp:read mcp:write", q.state.getD "", q.resource, now⟩ := by
    rw [hauth]
    simp [create_authorization_session, _cleanup_expired_sessions, storeInsert,
          List.filter_cons, AUTH_CODE_EXPIRY, storeLookup_cons]
  refine ⟨⟨c, r, ch, "S256", "mcp:read mcp:write", q.state.getD "", q.resource, now⟩,
    hsess, ?_, ?_⟩
  case _ => rfl
  have hcreate : create_authorization_code (oauth_authorize st now sid q).2 sid uid cred
      codeStr now = some (codeStr,
        ⟨storeErase (oauth_authorize st now sid q).2.oauth_sessions sid,
         storeInsert (oauth_authorize st now sid q).2.auth_codes codeStr
           ⟨⟨c, r, ch, "S256", "mcp:read mcp:write", q.state.getD "", q.resource, now⟩,
            uid, cred, now⟩,
         (oauth_authorize st now sid q).2.refresh_tokens⟩) := by
    simp [create_authorization_code, hsess]
  refine ⟨_, hcreate, ?_⟩
  have hlk2 : storeLookup (storeInsert (oauth_authorize st now sid q).2.auth_codes codeStr
        ⟨⟨c, r, ch, "S256", "mcp:read mcp:write", q.state.getD "", q.resource, now⟩,
         uid, cred, now⟩) codeStr
      = some ⟨⟨c, r, ch, "S256", "mcp:read mcp:write", q.state.getD "", q.resource, now⟩,
         uid, cred, now⟩ :=
    storeLookup_insert_self _ _ _
  have hnotexp : ¬ (now2 - now > AUTH_CODE_EXPIRY) := by omega
  have hex : exchange_code_for_tokens
      ⟨storeErase (oauth_authorize st now sid q).2.oauth_sessions sid,
       storeInsert (oauth_authorize st now sid q).2.auth_codes codeStr
         ⟨⟨c, r, ch, "S256", "mcp:read mcp:write", q.state.getD "", q.resource, now⟩,
          uid, cred, now⟩,
       (oauth_authorize st now sid q).2.refresh_tokens⟩ now2 jti rt key codeStr verifier c r
      = (some (.ok ⟨_create_access_token uid cred "mcp:read mcp:write" c now2 jti key,
                    "Bearer", ACCESS_TOKEN_EXPIRY, rt, "mcp:read mcp:write"⟩),
         ⟨storeErase (oauth_authorize st now sid q).2.oauth_sessions sid,
          storeErase (storeInsert (oauth_authorize st now sid q).2.auth_codes codeStr
            ⟨⟨c, r, ch, "S256", "mcp:read mcp:write", q.state.getD "", q.resource, now⟩,
             uid, cred, now⟩) codeStr,
          storeInsert (oauth_authorize st now sid q).2.refresh_tokens rt
            ⟨uid, cred, "mcp:read mcp:write", c, now2⟩⟩) := by
    have hchascii := generate_code_challenge_ascii verifier ch hpkce
    have hverify : verify_code_challenge verifier ch = some true := by
      simp only [verify_code_challenge, hpkce]
      rw [compare_digest_eq _ _ hchascii hchascii]
      simp
    simp only [exchange_code_for_tokens, hlk2]
    simp [hnotexp, hverify, _create_refresh_token, storeInsert]
  exact ⟨_, _, hex, rfl⟩

/-- Witness for C4 at a concrete request with `code_challenge_method=plain`
and all other fields valid. -/
theorem authorize_rejects_non_s256_witness :
    ((⟨some "client1", some "https://cb", some "code", none, some "xyz",
        some "E9Melhoa2OwvFrEMTJguCHaoeK1t8URWbuGJSstw-cM", some "plain", none⟩ :
        QueryParams).response_type = some "code" ∧
     (⟨some "client1", some "https://cb", some "code", none, some "xyz",
        some "E9Melhoa2OwvFrEMTJguCHaoeK1t8URWbuGJSstw-cM", some "plain", none⟩ :
        QueryParams).code_challenge_method.getD "" ≠ "S256") ∧
    oauth_authorize ⟨[], [], []⟩ 0 "sid1"
      ⟨some "client1", some "https://cb", some "code", none, some "xyz",
       some "E9Melhoa2OwvFrEMTJguCHaoeK1t8URWbuGJSstw-cM", some "plain", none⟩
      = (.err 400 "invalid_request" "code_challenge_method must be S256", ⟨[], [], []⟩) :=
  ⟨⟨rfl, by decide⟩,
   authorize_rejects_non_s256 ⟨[], [], []⟩ 0 "sid1" _
     "client1" "https://cb" "E9Melhoa2OwvFrEMTJguCHaoeK1t8URWbuGJSstw-cM"
     rfl rfl (by decide) rfl (by decide) rfl (by decide) (by decide)⟩

/-- Witness for C10 at a concrete request without `scope`, exchanging
with the verifier `"abc"` whose S256 challenge is computed concretely. -/
theorem default_scope_flows_witness :
    ((⟨some "client1", some "https://cb", some "code", none, some "xyz",
        some "ungWv48Bz-pBQUDeXa4iI7ADYaOWF3qctBD_YfIAFa0", some "S256", none⟩ :
        QueryParams).scope = none ∧
     generate_code_challenge "abc" = some "ungWv48Bz-pBQUDeXa4iI7ADYaOWF3qctBD_YfIAFa0" ∧
     (100 : Nat) - 0 ≤ AUTH_CODE_EXPIRY) ∧
    (∃ s, storeLookup (oauth_authorize ⟨[], [], []⟩ 0 "sid1"
        ⟨some "client1", some "https://cb", some "code", none, some "xyz",
         some "ungWv48Bz-pBQUDeXa4iI7ADYaOWF3qctBD_YfIAFa0", some "S256", none⟩).2.oauth_sessions
        "sid1" = some s ∧
      s.scope = "mcp:read mcp:write" ∧
      ∃ stc, create_authorization_code (oauth_authorize ⟨[], [], []⟩ 0 "sid1"
          ⟨some "client1", some "https://cb", some "code", none, some "xyz",
           some "ungWv48Bz-pBQUDeXa4iI7ADYaOWF3qctBD_YfIAFa0", some "S256", none⟩).2
          "sid1" "user1" "key1" "code1" 0 = some ("code1", stc) ∧
        ∃ resp st3,
          exchange_code_for_tokens stc 100 "j1" "rt1" ⟨1, 1, "k"⟩ "code1" "abc"
              "client1" "https://cb"
            = (some (.ok resp), st3) ∧
          resp.scope = "mcp:read mcp:write") :=
  ⟨⟨rfl, by decide, by decide⟩,
   default_scope_flows ⟨[], [], []⟩ 0 100 "sid1" "user1" "key1" "code1" "j1" "rt1" ⟨1, 1, "k"⟩
     _ "client1" "https://cb" "ungWv48Bz-pBQUDeXa4iI7ADYaOWF3qctBD_YfIAFa0" "abc"
     rfl rfl rfl (by decide) rfl (by decide) rfl (by decide) rfl (by decide) (by decide)⟩

/-- C6 counterexample: the claim also asserts that for ANY challenge not
equal to the S256 value, `verify_code_challenge` returns false — but
`secrets.compare_digest` raises `TypeError` on a non-ASCII `str`
argument instead of returning `False`.  At verifier `"abc"` and the
non-ASCII challenge `"é"` (which differs from the S256 value), the
program raises rather than returning false. -/
theorem pkce_reject_clause_counterexample :
    ("é" : String) ≠ "ungWv48Bz-pBQUDeXa4iI7ADYaOWF3qctBD_YfIAFa0" ∧
    generate_code_challenge "abc" = some "ungWv48Bz-pBQUDeXa4iI7ADYaOWF3qctBD_YfIAFa0" ∧
    verify_code_challenge "abc" "é" ≠ some false := by decide

/-- C6 amended: PKCE round trip over ASCII strings (the only ones the
PKCE helpers handle without raising: `verifier.encode('ascii')` raises
`UnicodeEncodeError` on a non-ASCII verifier and `compare_digest` raises
`TypeError` on a non-ASCII challenge).  For every ASCII verifier,
`generate_code_challenge(verifier)` is the base64url-without-padding
encoding of SHA-256(verifier), `verify_code_challenge` accepts exactly
that challenge, and returns false on every other ASCII challenge. -/
theorem pkce_round_trip_ascii (verifier challenge : String)
    (hascii : ∀ ch ∈ verifier.data, ch.toNat < 128)
    (hchallenge : ∀ ch ∈ challenge.data, ch.toNat < 128) :
    generate_code_challenge verifier
      = some (String.mk (b64urlNoPad (sha256 (verifier.data.map Char.toNat)))) ∧
    verify_code_challenge verifier
      (String.mk (b64urlNoPad (sha256 (verifier.data.map Char.toNat)))) = some true ∧
    (∀ exp, generate_code_challenge verifier = some exp → challenge ≠ exp →
      verify_code_challenge verifier challenge = some false) := by
  have henc : asciiEncode verifier = some (verifier.data.map Char.toNat) := by
    simp [asciiEncode]
    intro c hc
    exact hascii c hc
  have hgen : generate_code_challenge verifier
      = some (String.mk (b64urlNoPad (sha256 (verifier.data.map Char.toNat)))) := by
    simp [generate_code_challenge, henc]
  have hexpascii := generate_code_challenge_ascii verifier _ hgen
  refine ⟨hgen, ?_, ?_⟩
  · simp only [verify_code_challenge, hgen]
    rw [compare_digest_eq _ _ hexpascii hexpascii]
    simp
  · intro exp hexp hne
    rw [hgen] at hexp
    have hexp' : exp = String.mk (b64urlNoPad (sha256 (verifier.data.map Char.toNat))) :=
      (Option.some.injEq _ _).mp hexp.symm
    subst hexp'
    simp only [verify_code_challenge, hgen]
    rw [compare_digest_eq _ _ hexpascii hchallenge]
    simp
    exact fun h => hne h.symm

/-- Witness for the amended C6 at the concrete verifier `"abc"` and the
ASCII challenge `"wrong"` (the SHA-256 and base64url computations are
evaluated by the kernel). -/
theorem pkce_round_trip_ascii_witness :
    ((∀ ch ∈ ("abc" : String).data, ch.toNat < 128) ∧
     (∀ ch ∈ ("wrong" : String).data, ch.toNat < 128)) ∧
    (generate_code_challenge "abc"
        = some (String.mk (b64urlNoPad (sha256 (("abc" : String).data.map Char.toNat)))) ∧
     verify_code_challenge "abc"
        (String.mk (b64urlNoPad (sha256 (("abc" : String).data.map Char.toNat)))) = some true ∧
     (∀ exp, generate_code_challenge "abc" = some exp → "wrong" ≠ exp →
        verify_code_challenge "abc" "wrong" = some false)) :=
  ⟨⟨by decide, by decide⟩, pkce_round_trip_ascii "abc" "wrong" (by decide) (by decide)⟩

/-- Length of the unpadded base64url encoding. -/
theorem b64urlNoPad_length (l : List Nat) :
    (b64urlNoPad l).length = 4 * (l.length / 3)
      + (if l.length % 3 = 0 then 0 else if l.length % 3 = 1 then 2 else 3) := by
  match l with
  | [] => simp [b64urlNoPad]
  | [a] => simp [b64urlNoPad]
  | [a, b] => simp [b64urlNoPad]
  | a :: b :: c :: rest =>
      have ih := b64urlNoPad_length rest
      have h3 : (rest.length + 3) % 3 = rest.length % 3 := by omega
      simp only [b64urlNoPad, List.length_cons, ih]
      split_ifs <;> omega

/-- C7 counterexample: `generate_code_verifier` returns
`secrets.token_urlsafe(64)[:128]`, and the base64url encoding of 64
random bytes has 86 characters, not 128 — evaluated here on a concrete
64-byte draw. -/
theorem verifier_not_128_chars :
    (generate_code_verifier (List.replicate 64 0)).length ≠ 128 := by decide

/-- C7 amended: `generate_code_verifier` always returns a string of
exactly 86 characters (not 128) drawn from the unreserved URL-safe
base64url alphabet, for every 64-byte draw of the entropy source. -/
theorem verifier_86_urlsafe_chars (randomBytes : List Nat)
    (h : randomBytes.length = 64) :
    (generate_code_verifier randomBytes).length = 86 ∧
    ∀ ch ∈ (generate_code_verifier randomBytes).data, ch ∈ b64alphabet := by
  have hlen := b64urlNoPad_length randomBytes
  rw [h] at hlen
  norm_num at hlen
  constructor
  · show ((b64urlNoPad randomBytes).take 128).length = 86
    rw [List.length_take]
    omega
  · intro ch hch
    have hch' : ch ∈ (b64urlNoPad randomBytes).take 128 := hch
    exact b64urlNoPad_mem _ ch (List.mem_of_mem_take hch')

/-- Witness for the amended C7 at a concrete 64-byte draw. -/
theorem verifier_86_urlsafe_chars_witness :
    (List.replicate 64 0).length = 64 ∧
    ((generate_code_verifier (List.replicate 64 0)).length = 86 ∧
     ∀ ch ∈ (generate_code_verifier (List.replicate 64 0)).data, ch ∈ b64alphabet) :=
  ⟨by decide, verifier_86_urlsafe_chars (List.replicate 64 0) (by decide)⟩

/-- Decoding inverts the alphabet map on 6-bit values. -/
theorem b64index_b64char (i : Fin 64) : b64index (b64char i.val) = i.val := by
  revert i; decide

/-- `to_bytes` produces bytes. -/
theorem natToBytesBE_lt (x len : Nat) : ∀ b ∈ natToBytesBE x len, b < 256 := by
  induction len generalizing x with
  | zero => simp [natToBytesBE]
  | succ l ih =>
      intro b hb
      simp only [natToBytesBE, List.mem_append, List.mem_singleton] at hb
      rcases hb with hb | hb
      · exact ih _ b hb
      · omega

/-- base64url decoding inverts encoding on byte lists. -/
theorem b64urlDecode_b64urlNoPad (l : List Nat) (h : ∀ b ∈ l, b < 256) :
    b64urlDecode (b64urlNoPad l) = l := by
  match l with
  | [] => rfl
  | [a] =>
      have ha : a < 256 := h a (by simp)
      have h1 := b64index_b64char ⟨a / 4, by omega⟩
      have h2 := b64index_b64char ⟨(a % 4) * 16, by omega⟩
      simp only [b64urlNoPad, b64urlDecode] at *
      rw [h1, h2]
      norm_num
      omega
  | [a, b] =>
      have ha : a < 256 := h a (by simp)
      have hb : b < 256 := h b (by simp)
      have h1 := b64index_b64char ⟨a / 4, by omega⟩
      have h2 := b64index_b64char ⟨(a % 4) * 16 + b / 16, by omega⟩
      have h3 := b64index_b64char ⟨(b % 16) * 4, by omega⟩
      simp only [b64urlNoPad, b64urlDecode] at *
      rw [h1, h2, h3]
      norm_num
      constructor <;> omega
  | a :: b :: c :: rest =>
      have ha : a < 256 := h a (by simp)
      have hb : b < 256 := h b (by simp)
      have hc : c < 256 := h c (by simp)
      have ih := b64urlDecode_b64urlNoPad rest (fun x hx => h x (by simp [hx]))
      have h1 := b64index_b64char ⟨a / 4, by omega⟩
      have h2 := b64index_b64char ⟨(a % 4) * 16 + b / 16, by omega⟩
      have h3 := b64index_b64char ⟨(b % 16) * 4 + c / 64, by omega⟩
      have h4 := b64index_b64char ⟨c % 64, by omega⟩
      simp only [b64urlNoPad, b64urlDecode] at *
      rw [h1, h2, h3, h4, ih]
      norm_num
      refine ⟨by omega, by omega, by omega⟩

/-- `int.from_bytes` inverts `int.to_bytes` up to the width. -/
theorem bytesToNatBE_natToBytesBE (x len : Nat) :
    bytesToNatBE (natToBytesBE x len) = x % 256 ^ len := by
  induction len generalizing x with
  | zero => simp [natToBytesBE, bytesToNatBE, Nat.mod_one]
  | succ l ih =>
      have happ : bytesToNatBE (natToBytesBE (x / 256) l ++ [x % 256])
          = bytesToNatBE (natToBytesBE (x / 256) l) * 256 + x % 256 := by
        simp [bytesToNatBE, List.foldl_append]
      rw [natToBytesBE, happ, ih]
      rw [Nat.pow_succ, Nat.mul_comm (256 ^ l) 256, Nat.mod_mul]
      ring
      
/-- `String.mk` then `.data` is the identity (generic, so later rewrites
need no heavy definitional unfolding). -/
theorem data_mk (l : List Char) : (String.mk l).data = l := rfl

/-- C8: for every keypair the key manager can hold (any modulus fitting
the 256-byte width and exponent fitting the 3-byte width `get_jwks`
serialises), the single JWKS entry has `kty="RSA"`, `use="sig"`,
`alg="RS256"`, the current kid, and `n`/`e` fields that decode from
base64url back to exactly the public numbers of the signing keypair. -/
theorem jwks_reconstructs_key (key : Keypair)
    (hn : key.n < 256 ^ 256) (he : key.e < 256 ^ 3) :
    ∃ jwk, get_jwks key = some { keys := [jwk] } ∧
      jwk.kty = "RSA" ∧ jwk.use = "sig" ∧ jwk.alg = "RS256" ∧ jwk.kid = key.kid ∧
      decode_b64url_int jwk.n = key.n ∧ decode_b64url_int jwk.e = key.e := by
  have hne : int_to_base64url key.n 256
      = some (String.mk (b64urlNoPad (natToBytesBE key.n 256))) := by
    unfold int_to_base64url
    rw [if_pos hn]
  have hee : int_to_base64url key.e 3
      = some (String.mk (b64urlNoPad (natToBytesBE key.e 3))) := by
    unfold int_to_base64url
    rw [if_pos he]
  refine ⟨⟨"RSA", "sig", "RS256", key.kid,
           String.mk (b64urlNoPad (natToBytesBE key.n 256)),
           String.mk (b64urlNoPad (natToBytesBE key.e 3))⟩, ?_, rfl, rfl, rfl, rfl, ?_, ?_⟩
  · rw [get_jwks, hne, hee]
  · show decode_b64url_int (String.mk (b64urlNoPad (natToBytesBE key.n 256))) = key.n
    unfold decode_b64url_int
    rw [data_mk]
    rw [b64urlDecode_b64urlNoPad _ (natToBytesBE_lt key.n 256)]
    rw [bytesToNatBE_natToBytesBE]
    exact Nat.mod_eq_of_lt hn
  · show decode_b64url_int (String.mk (b64urlNoPad (natToBytesBE key.e 3))) = key.e
    unfold decode_b64url_int
    rw [data_mk]
    rw [b64urlDecode_b64urlNoPad _ (natToBytesBE_lt key.e 3)]
    rw [bytesToNatBE_natToBytesBE]
    exact Nat.mod_eq_of_lt he


/-- Witness for C8 at a concrete keypair. -/
theorem jwks_reconstructs_key_witness :
    ((65537 : Nat) < 256 ^ 256 ∧ (65537 : Nat) < 256 ^ 3) ∧
    (∃ jwk, get_jwks ⟨65537, 65537, "kid-1"⟩ = some { keys := [jwk] } ∧
      jwk.kty = "RSA" ∧ jwk.use = "sig" ∧ jwk.alg = "RS256" ∧ jwk.kid = "kid-1" ∧
      decode_b64url_int jwk.n = 65537 ∧ decode_b64url_int jwk.e = 65537) :=
  ⟨⟨by decide, by decide⟩,
   jwks_reconstructs_key ⟨65537, 65537, "kid-1"⟩ (by decide) (by decide)⟩

/-- C9: `POST /oauth/login` (local mode, modelled from the spec since
the handler is absent from the sources) — with a credential the identity
collaborator accepts and an unexpired session, the response is a 302
redirect to the session's `redirect_uri` carrying the fresh code and the
client's original `state`; with a bad credential or an expired/missing
session it re-renders the login page with status 400. -/
theorem login_endpoint_behavior (validateCredential : String → Option String)
    (st : OAuthState) (now : Nat) (freshCode sid cred : String) :
    (∀ s uid, storeLookup st.oauth_sessions sid = some s →
        now - s.created_at ≤ AUTH_CODE_EXPIRY →
        validateCredential cred = some uid →
        (oauth_login validateCredential st now freshCode sid cred).1
          = .redirect 302 s.redirect_uri freshCode s.state) ∧
    (((∀ s, storeLookup st.oauth_sessions sid = some s →
          now - s.created_at > AUTH_CODE_EXPIRY) ∨
        validateCredential cred = none) →
      ∃ e, (oauth_login validateCredential st now freshCode sid cred).1
          = .loginPage 400 sid (some e)) := by
  constructor
  · intro s uid hs hfresh hcred
    have hget : get_authorization_session st now sid = (some s, st) := by
      simp [get_authorization_session, hs]
      omega
    have hmint : create_authorization_code st sid uid cred freshCode now
        = some (freshCode,
            ⟨storeErase st.oauth_sessions sid,
             storeInsert st.auth_codes freshCode ⟨s, uid, cred, now⟩,
             st.refresh_tokens⟩) := by
      simp [create_authorization_code, hs]
    simp [oauth_login, hget, hcred, hmint]
  · intro hbad
    unfold oauth_login
    cases hs : storeLookup st.oauth_sessions sid with
    | none => simp [get_authorization_session, hs]
    | some s =>
        by_cases hexp : now - s.created_at > AUTH_CODE_EXPIRY
        · simp [get_authorization_session, hs, hexp]
        · rcases hbad with hbad | hbad
          · exact absurd (hbad s hs) hexp
          · simp [get_authorization_session, hs, hexp, hbad]

/-- Witness for C9 at a concrete pending session and credential
validator. -/
theorem login_endpoint_behavior_witness :
    (storeLookup (⟨[("sid1", ⟨"client1", "https://cb", "ch1", "S256", "mcp:read",
          "xyz", none, 0⟩)], [], []⟩ : OAuthState).oauth_sessions "sid1"
        = some ⟨"client1", "https://cb", "ch1", "S256", "mcp:read", "xyz", none, 0⟩ ∧
      (100 : Nat) - 0 ≤ AUTH_CODE_EXPIRY ∧
      (fun c => if c = "valid-key" then some "user-1" else none) "valid-key" = some "user-1") ∧
    (oauth_login (fun c => if c = "valid-key" then some "user-1" else none)
        ⟨[("sid1", ⟨"client1", "https://cb", "ch1", "S256", "mcp:read", "xyz", none, 0⟩)],
         [], []⟩ 100 "code1" "sid1" "valid-key").1
      = .redirect 302 "https://cb" "code1" "xyz" :=
  ⟨⟨by decide, by decide, by decide⟩,
   (login_endpoint_behavior (fun c => if c = "valid-key" then some "user-1" else none)
      ⟨[("sid1", ⟨"client1", "https://cb", "ch1", "S256", "mcp:read", "xyz", none, 0⟩)],
       [], []⟩ 100 "code1" "sid1" "valid-key").1
     ⟨"client1", "https://cb", "ch1", "S256", "mcp:read", "xyz", none, 0⟩ "user-1"
     (by decide) (by decide) (by decide)⟩

end Sokosumi
